import Mathlib

/-!
Verification of the REACHER Suite core against its specification.

The development shallowly embeds the two source files:
* `src/dashboard/main.py` — the session-tab registry of the web dashboard
  (`make_new_local_instance_tab`, `make_new_network_instance_tab`), and the
  desktop launcher close handler (`on_closing`).
* `src/api/app.py` — the UDP discovery broadcast service (`run_service`,
  `end_service`, `shutdown_service`) and its signal registration.

Widget state is modelled by the fields the callbacks read and write
(`box_name_TextInput.value`, `box_name_TextInput.placeholder`,
`session_tabs`, `session_tabs.active`); tab contents (panel layouts) are
modelled by a tag recording which renderable was instantiated.
-/

/-- Which renderable object fills a tab: the welcome pane created at module
    load, a `dashboard_lite.LDashboard().layout()`, or a
    `dashboard.Dashboard().layout()` (main.py lines 33-37, 46-47, 59-60). -/
inductive TabContent
  | welcomePane
  | localDashboardLayout
  | networkDashboardLayout
deriving DecidableEq

/-- One entry of `session_tabs`: its display name and its content. -/
structure Tab where
  name : String
  content : TabContent
deriving DecidableEq

/-- The mutable module-level state that the two tab-creation callbacks in
    main.py read and write: the text input value and placeholder and the
    `session_tabs` list with its active index. -/
structure DashboardState where
  value : String
  placeholder : String
  tabs : List Tab
  active : Nat
deriving DecidableEq

/-- Initial module state (main.py lines 10, 37): an empty input with the
    original placeholder, and the single Welcome tab, which is active. -/
def initialState : DashboardState :=
  { value := ""
    placeholder := "Enter a box name"
    tabs := [{ name := "Welcome", content := TabContent.welcomePane }]
    active := 0 }

/-- main.py lines 39-50.  The callback reads `box_name_TextInput.value`; an
    empty value only changes the placeholder; a value occurring among the tab
    names (`session_tabs._names`) clears the value and sets the
    duplicate-name placeholder; otherwise a tab named
    `"LOCAL - " ++ value` is appended, `active` is set to
    `len(session_tabs) - 1`, and value and placeholder are cleared. -/
def make_new_local_instance_tab (s : DashboardState) : DashboardState :=
  if s.value = "" then
    { s with placeholder := "Please enter a name and try again." }
  else if s.value ∈ s.tabs.map Tab.name then
    { s with value := ""
             placeholder := "Name entered already exists. Please enter a different name." }
  else
    let newTabs := s.tabs ++ [{ name := "LOCAL - " ++ s.value, content := TabContent.localDashboardLayout }]
    { value := "", placeholder := "", tabs := newTabs, active := newTabs.length - 1 }

/-- main.py lines 52-63: identical to the local variant except for the
    `"NETWORK - "` label and the `dashboard.Dashboard` renderable. -/
def make_new_network_instance_tab (s : DashboardState) : DashboardState :=
  if s.value = "" then
    { s with placeholder := "Please enter a name and try again." }
  else if s.value ∈ s.tabs.map Tab.name then
    { s with value := ""
             placeholder := "Name entered already exists. Please enter a different name." }
  else
    let newTabs := s.tabs ++ [{ name := "NETWORK - " ++ s.value, content := TabContent.networkDashboardLayout }]
    { value := "", placeholder := "", tabs := newTabs, active := newTabs.length - 1 }

/-- The two kinds of session the spec distinguishes. -/
inductive SessionKind
  | Local
  | Network
deriving DecidableEq

/-- The createSession(name, kind) operation of the spec dispatches to the callback wired to
    the button of the given kind (main.py lines 65-66). -/
def createSession : SessionKind → DashboardState → DashboardState
  | SessionKind.Local => make_new_local_instance_tab
  | SessionKind.Network => make_new_network_instance_tab

/-- The user typing a name into the box before clicking a button. -/
def setBoxName (s : DashboardState) (n : String) : DashboardState :=
  { s with value := n }

/-- One user interaction: type the name, then click the create button of the
    given kind. -/
def applyCreate (s : DashboardState) (c : String × SessionKind) : DashboardState :=
  createSession c.2 (setBoxName s c.1)

/-- A whole sequence of create interactions starting from the initial
    module state. -/
def runSeq (cs : List (String × SessionKind)) : DashboardState :=
  cs.foldl applyCreate initialState

/-- The session names of the registry, in tab order (`session_tabs._names`). -/
def sessionNames (s : DashboardState) : List String :=
  s.tabs.map Tab.name

/-- C1: refuted on the code.  The claim says every sequence of createSession
    calls keeps the registry names unique.  The duplicate check at main.py
    line 42 compares the raw input value against the stored tab names, but
    line 47 stores the name with a `"LOCAL - "` label in front, so the second
    of two Local creations with the input "A" passes the check and appends a
    second tab named "LOCAL - A": the name list is
    ["Welcome", "LOCAL - A", "LOCAL - A"], which has a duplicate. -/
theorem C1_uniqueness_violated :
    sessionNames (runSeq [("A", SessionKind.Local), ("A", SessionKind.Local)])
      = ["Welcome", "LOCAL - A", "LOCAL - A"] ∧
    ¬ (sessionNames (runSeq [("A", SessionKind.Local), ("A", SessionKind.Local)])).Nodup := by
  constructor
  · rfl
  · decide

/-- C2: refuted on the code.  After a session was created from the input "A"
    (so a session with that name was previously created), a second
    createSession call with the input "A" is not rejected: the registry grows
    from 2 to 3 entries and the placeholder is cleared instead of showing the
    duplicate-name message, because the check at main.py line 42 compares the
    raw value "A" against the stored labels "Welcome" and "LOCAL - A". -/
theorem C2_duplicate_not_rejected :
    (createSession SessionKind.Local (setBoxName (runSeq [("A", SessionKind.Local)]) "A")).tabs.length = 3 ∧
    (runSeq [("A", SessionKind.Local)]).tabs.length = 2 ∧
    (createSession SessionKind.Local (setBoxName (runSeq [("A", SessionKind.Local)]) "A")).placeholder = "" := by
  refine ⟨by decide, by decide, by decide⟩

/-- C9: for an empty input value, a createSession call of either kind leaves
    the tabs (and active index) unchanged, sets the prompt placeholder, and
    leaves the input value untouched.  No hypothesis about the tab names is
    needed: the empty-name branch is the first checked (main.py lines 40, 53),
    so it wins even in a state whose name list contained the empty string. -/
theorem C9_empty_name_prompts (s : DashboardState) (k : SessionKind) (h : s.value = "") :
    (createSession k s).tabs = s.tabs ∧
    (createSession k s).value = s.value ∧
    (createSession k s).placeholder = "Please enter a name and try again." ∧
    (createSession k s).active = s.active := by
  cases k <;>
    simp [createSession, make_new_local_instance_tab, make_new_network_instance_tab, h]

/-- C9 witness: the empty-name branch evaluated at the initial state. -/
theorem C9_empty_name_prompts_witness :
    (createSession SessionKind.Local initialState).tabs = initialState.tabs ∧
    (createSession SessionKind.Local initialState).value = initialState.value ∧
    (createSession SessionKind.Local initialState).placeholder = "Please enter a name and try again." ∧
    (createSession SessionKind.Local initialState).active = initialState.active :=
  C9_empty_name_prompts initialState SessionKind.Local rfl

/-- C6 counterexample: "Welcome" is a non-empty name that was never passed to
    any previous createSession call (this is the very first call), yet the
    call appends nothing: the registry keeps its single entry, and the
    duplicate-name message is shown, because "Welcome" is the stored name of
    the initial tab (main.py line 37). -/
theorem C6_unused_name_rejected :
    (createSession SessionKind.Local (setBoxName initialState "Welcome")).tabs.length = 1 ∧
    ¬ (createSession SessionKind.Local (setBoxName initialState "Welcome")).tabs.length
        = (setBoxName initialState "Welcome").tabs.length + 1 ∧
    (createSession SessionKind.Local (setBoxName initialState "Welcome")).placeholder
      = "Name entered already exists. Please enter a different name." := by
  refine ⟨by decide, by decide, by decide⟩

/-- The label the callback puts in front of the typed name
    (main.py lines 47, 60). -/
def kindLabel : SessionKind → String
  | SessionKind.Local => "LOCAL - "
  | SessionKind.Network => "NETWORK - "

/-- The renderable instantiated for each kind (main.py lines 46, 59). -/
def kindContent : SessionKind → TabContent
  | SessionKind.Local => TabContent.localDashboardLayout
  | SessionKind.Network => TabContent.networkDashboardLayout

/-- C6 as amended: for every non-empty input value that does not occur among
    the stored entry names of the registry, createSession appends exactly one
    entry, labelled with the label of its kind, after all existing entries; the
    active index moves to the appended entry; and the input value and the
    placeholder (prompt text) are cleared. -/
theorem C6_fresh_name_appends (s : DashboardState) (k : SessionKind)
    (h1 : s.value ≠ "") (h2 : s.value ∉ s.tabs.map Tab.name) :
    (createSession k s).tabs
      = s.tabs ++ [{ name := kindLabel k ++ s.value, content := kindContent k }] ∧
    (createSession k s).active = s.tabs.length ∧
    (createSession k s).value = "" ∧
    (createSession k s).placeholder = "" := by
  cases k <;>
    simp [createSession, make_new_local_instance_tab, make_new_network_instance_tab,
      kindLabel, kindContent, h1, h2]

/-- C6 witness: creating "box1" from the initial state appends the tab
    "LOCAL - box1" and focuses it. -/
theorem C6_fresh_name_appends_witness :
    (createSession SessionKind.Local (setBoxName initialState "box1")).tabs
      = (setBoxName initialState "box1").tabs
          ++ [{ name := kindLabel SessionKind.Local ++ (setBoxName initialState "box1").value,
                content := kindContent SessionKind.Local }] ∧
    (createSession SessionKind.Local (setBoxName initialState "box1")).active
      = (setBoxName initialState "box1").tabs.length ∧
    (createSession SessionKind.Local (setBoxName initialState "box1")).value = "" ∧
    (createSession SessionKind.Local (setBoxName initialState "box1")).placeholder = "" :=
  C6_fresh_name_appends (setBoxName initialState "box1") SessionKind.Local
    (by decide) (by decide)

/-- The externally visible actions the close handler of the launcher can take
    (main.py lines 112-118): destroy the tkinter window, forcibly terminate
    the server process (`panel_process.terminate()`), join it with the given
    timeout (`panel_process.join()` passes none, i.e. block forever), and
    exit the supervisor process with the given status (`sys.exit(0)`). -/
inductive SupEffect
  | destroyWindow
  | terminateServer
  | joinServer (timeout : Option Nat)
  | exitProcess (code : Nat)
deriving DecidableEq

/-- main.py lines 112-118: `on_closing` as the ordered list of actions it
    performs, as a function of whether the user confirmed the dialog and
    whether `panel_process.is_alive()` holds at that moment.  A cancelled
    dialog does nothing; a confirmed one destroys the window, terminates and
    joins the server process only when it is alive, then exits with 0. -/
def on_closing (confirmed : Bool) (serverAlive : Bool) : List SupEffect :=
  if confirmed then
    [SupEffect.destroyWindow]
      ++ (if serverAlive then [SupEffect.terminateServer, SupEffect.joinServer none] else [])
      ++ [SupEffect.exitProcess 0]
  else []

/-- C7: with the server process alive, confirming the close dialog destroys
    the window, forcibly terminates the server process, joins it with no
    timeout (blocking until it has fully exited), and exits the supervisor
    with status 0, in that order; cancelling the dialog performs no action at
    all, so the server keeps running and the window stays open. -/
theorem C7_close_confirm_and_cancel :
    on_closing true true
      = [SupEffect.destroyWindow, SupEffect.terminateServer,
         SupEffect.joinServer none, SupEffect.exitProcess 0] ∧
    on_closing false true = [] ∧
    on_closing false false = [] := by
  decide

/-- C10: when the user confirms the dialog while the server process is no
    longer alive, the handler skips both the forced termination and the join
    and still exits with status 0; a confirmed close reaches exit status 0
    whether or not the server process was still running. -/
theorem C10_confirm_dead_server_exits_zero :
    on_closing true false = [SupEffect.destroyWindow, SupEffect.exitProcess 0] ∧
    SupEffect.terminateServer ∉ on_closing true false ∧
    SupEffect.joinServer none ∉ on_closing true false ∧
    SupEffect.exitProcess 0 ∈ on_closing true true ∧
    SupEffect.exitProcess 0 ∈ on_closing true false := by
  decide

/-- The externally visible actions of the shutdown path of the API process
    (app.py lines 57-63): set the shared `stop_event` flag, join the
    broadcast thread (never performed — present so its absence is
    expressible), and exit the process with the given status. -/
inductive AppEffect
  | setStopFlag
  | joinBroadcastThread
  | exitProcess (code : Nat)
deriving DecidableEq

/-- app.py lines 60-63: `shutdown_service` sets the stop flag and then
    immediately exits the process with status 0.  Its signal-number and frame
    arguments do not influence its behaviour, so they are not modelled. -/
def shutdown_service : List AppEffect :=
  [AppEffect.setStopFlag, AppEffect.exitProcess 0]

/-- The two termination signals for which handlers are installed
    (app.py lines 65-66). -/
inductive OsSignal
  | sigint
  | sigterm
deriving DecidableEq

/-- app.py lines 65-66: both SIGINT and SIGTERM are wired to
    `shutdown_service`. -/
def installedHandlers : OsSignal → List AppEffect
  | OsSignal.sigint => shutdown_service
  | OsSignal.sigterm => shutdown_service

/-- C8: receipt of SIGINT or SIGTERM runs `shutdown_service`, which sets the
    broadcast stop flag and then immediately exits the hosting process with
    status 0; no join of the broadcast thread appears anywhere in the handler,
    so the process does not wait for the broadcast loop to exit. -/
theorem C8_signals_stop_then_exit_zero :
    installedHandlers OsSignal.sigint = [AppEffect.setStopFlag, AppEffect.exitProcess 0] ∧
    installedHandlers OsSignal.sigterm = [AppEffect.setStopFlag, AppEffect.exitProcess 0] ∧
    AppEffect.joinBroadcastThread ∉ installedHandlers OsSignal.sigint ∧
    AppEffect.joinBroadcastThread ∉ installedHandlers OsSignal.sigterm := by
  decide

/-- Discrete-time model of the send loop of `run_service` (app.py lines
    36-48) together with `end_service` (line 58).  `T` is the time at which
    the stop flag is set, so a flag read at time `t` observes it set exactly
    when `T ≤ t`.  At each loop head the flag is checked; if it is clear a
    packet is sent at the current time and the loop sleeps 5 units before
    the next check.  `fuel` bounds the number of iterations modelled.  The
    result is the list of send times together with the time of the exiting
    flag check when it happens within `fuel` iterations. -/
def run_service_schedule (T : Nat) : Nat → Nat → List Nat × Option Nat
  | 0, _ => ([], none)
  | fuel + 1, t =>
      if T ≤ t then ([], some t)
      else
        let rest := run_service_schedule T fuel (t + 5)
        (t :: rest.1, rest.2)

/-- Every send happens strictly before the stop flag was set: the loop checks
    the flag before each send. -/
theorem run_service_schedule_send_lt (T : Nat) :
    ∀ fuel t s, s ∈ (run_service_schedule T fuel t).1 → s < T := by
  intro fuel
  induction fuel with
  | zero =>
      intro t s hs
      simp [run_service_schedule] at hs
  | succ f ih =>
      intro t s hs
      by_cases h : T ≤ t
      · simp [run_service_schedule, h] at hs
      · simp only [run_service_schedule, if_neg h, List.mem_cons] at hs
        rcases hs with rfl | hs
        · omega
        · exact ih (t + 5) s hs

/-- When the loop observes the stop flag within its fuel, the observing check
    happens less than one full send interval after the flag was set, provided
    the loop entered before that deadline. -/
theorem run_service_schedule_exit_lt (T : Nat) :
    ∀ fuel t, t < T + 5 →
      ∀ ex, (run_service_schedule T fuel t).2 = some ex → ex < T + 5 := by
  intro fuel
  induction fuel with
  | zero =>
      intro t ht ex hex
      simp [run_service_schedule] at hex
  | succ f ih =>
      intro t ht ex hex
      by_cases h : T ≤ t
      · simp only [run_service_schedule, if_pos h, Option.some.injEq] at hex
        omega
      · simp only [run_service_schedule, if_neg h] at hex
        exact ih (t + 5) (by omega) ex hex

/-- C4: for a stop issued at time `T`, every packet send of the loop happens
    no later than `T + 5` (in fact strictly before `T`, since the flag is
    checked right before each send), and when the loop observes the flag its
    final check — after at most one more full 5-unit wait — also happens no
    later than `T + 5`. -/
theorem C4_stop_latency (T fuel : Nat) :
    (∀ s, s ∈ (run_service_schedule T fuel 0).1 → s ≤ T + 5) ∧
    (∀ ex, (run_service_schedule T fuel 0).2 = some ex → ex ≤ T + 5) := by
  constructor
  · intro s hs
    have := run_service_schedule_send_lt T fuel 0 s hs
    omega
  · intro ex hex
    have := run_service_schedule_exit_lt T fuel 0 (by omega) ex hex
    omega

/-- C4 witness: with the stop flag set at time 7, the loop sends at times 0
    and 5 and its exiting check happens at time 10, all within the bound 12. -/
theorem C4_stop_latency_witness :
    5 ∈ (run_service_schedule 7 3 0).1 ∧ (5 : Nat) ≤ 7 + 5 ∧
    (run_service_schedule 7 3 0).2 = some 10 ∧ (10 : Nat) ≤ 7 + 5 :=
  ⟨by decide, (C4_stop_latency 7 3).1 5 (by decide),
   by decide, (C4_stop_latency 7 3).2 10 (by decide)⟩

/-- Which of the three socket-setup steps of `run_service` succeed
    (app.py lines 31-34): creating the socket object, configuring it
    (`setsockopt` and `settimeout`), and binding it. -/
structure SetupEnv where
  socketOk : Bool
  setsockoptOk : Bool
  bindOk : Bool
deriving DecidableEq

/-- The errors the exception model distinguishes: an operating-system error
    raised by a socket call, and the unbound-local error Python raises when a
    local variable is read before any assignment to it has executed. -/
inductive PyErr
  | osError
  | unboundLocal
deriving DecidableEq

/-- State of the `server` local variable and its socket: whether the
    assignment `server = socket.socket(...)` completed, and whether the
    socket has been closed. -/
structure SockState where
  serverBound : Bool
  closed : Bool
deriving DecidableEq

/-- The `try` body of `run_service` (app.py lines 31-50): socket creation,
    option setting, bind, then the send loop.  Returns the resulting state
    and the error the body raises, if any.  Per-iteration send failures are
    caught by the inner handler at lines 49-50 and never escape the loop, and
    the loop exits normally once the stop flag is observed, so a body whose
    setup succeeded raises nothing. -/
def run_service_body (env : SetupEnv) (s : SockState) : SockState × Option PyErr :=
  if env.socketOk = false then (s, some PyErr.osError)
  else
    let s1 : SockState := { serverBound := true, closed := s.closed }
    if env.setsockoptOk = false then (s1, some PyErr.osError)
    else if env.bindOk = false then (s1, some PyErr.osError)
    else (s1, none)

/-- The `finally` block of `run_service` (app.py line 54): `server.close()`.
    When the assignment to `server` never executed, reading it raises an
    unbound-local error instead of closing anything. -/
def run_service_cleanup (s : SockState) : SockState × Option PyErr :=
  if s.serverBound then ({ s with closed := true }, none)
  else (s, some PyErr.unboundLocal)

/-- `run_service` (app.py lines 30-55) for a given setup environment: run the
    `try` body; any error it raises is caught and logged by the
    `except` clause at lines 51-52; the `finally` block then runs
    unconditionally, and an error raised inside it escapes the function.
    The result is the final socket state and the error escaping
    `run_service`, if any. -/
def run_service (env : SetupEnv) : SockState × Option PyErr :=
  run_service_cleanup (run_service_body env { serverBound := false, closed := false }).1

/-- C5 counterexample: when creating the socket object itself fails, the
    local `server` is never bound, so the call to close the socket in the finally block
    raises an unbound-local error that escapes `run_service`, and no socket
    is released.  This refutes the claim for the socket-creation-failure
    executions it explicitly includes. -/
theorem C5_create_failure_escapes :
    run_service { socketOk := false, setsockoptOk := true, bindOk := true }
      = ({ serverBound := false, closed := false }, some PyErr.unboundLocal) ∧
    (run_service { socketOk := false, setsockoptOk := true, bindOk := true }).2 ≠ none ∧
    (run_service { socketOk := false, setsockoptOk := true, bindOk := true }).1.closed = false := by
  decide

/-- C5 as amended: in every execution in which creating the socket object
    succeeds — including those in which option setting or bind then fails —
    `run_service` terminates without any error escaping it, and the socket is
    closed unconditionally, whether the loop was reached or setup failed
    part-way. -/
theorem C5_socket_released (env : SetupEnv) (h : env.socketOk = true) :
    (run_service env).2 = none ∧ (run_service env).1.closed = true := by
  rcases env with ⟨so, oo, bo⟩
  simp only at h
  subst h
  cases oo <;> cases bo <;> decide

/-- C5 witness: a run whose bind fails still escapes no error and closes the
    socket. -/
theorem C5_socket_released_witness :
    (run_service { socketOk := true, setsockoptOk := true, bindOk := false }).2 = none ∧
    (run_service { socketOk := true, setsockoptOk := true, bindOk := false }).1.closed = true :=
  C5_socket_released { socketOk := true, setsockoptOk := true, bindOk := false } rfl

/-- The 16 random bytes drawn by `os.urandom(16)` inside `uuid.uuid4()` when
    `run_service` executes `str(uuid.uuid4())` (app.py line 26).  Each field
    is reduced modulo 256 where it is consumed, so arbitrary naturals model
    arbitrary bytes. -/
structure Entropy where
  r0 : Nat
  r1 : Nat
  r2 : Nat
  r3 : Nat
  r4 : Nat
  r5 : Nat
  r6 : Nat
  r7 : Nat
  r8 : Nat
  r9 : Nat
  r10 : Nat
  r11 : Nat
  r12 : Nat
  r13 : Nat
  r14 : Nat
  r15 : Nat
deriving DecidableEq

/-- The byte sequence of `uuid.UUID(bytes=os.urandom(16), version=4)`:
    the 16 random bytes with byte 6 forced to version 4
    (`b6 & 0x0f | 0x40 = b6 % 16 + 64`) and byte 8 forced to the RFC 4122
    variant (`b8 & 0x3f | 0x80 = b8 % 64 + 128`). -/
def uuid4Bytes (e : Entropy) : List Nat :=
  [e.r0 % 256, e.r1 % 256, e.r2 % 256, e.r3 % 256, e.r4 % 256, e.r5 % 256,
   e.r6 % 16 + 64, e.r7 % 256, e.r8 % 64 + 128, e.r9 % 256, e.r10 % 256,
   e.r11 % 256, e.r12 % 256, e.r13 % 256, e.r14 % 256, e.r15 % 256]

/-- The lowercase hexadecimal digit for a value taken modulo 16, as the
    `%032x` format used by `str(uuid.UUID(...))` produces it. -/
def hexDigit (n : Nat) : Char :=
  if n % 16 < 10 then Char.ofNat (48 + n % 16) else Char.ofNat (87 + n % 16)

/-- Two hexadecimal digits per byte, high nibble first. -/
def hexPairs : List Nat → List Char
  | [] => []
  | b :: bs => hexDigit (b / 16) :: hexDigit b :: hexPairs bs

/-- Dashes inserted after hex digits 8, 12, 16 and 20, giving the 8-4-4-4-12
    grouping of `str(uuid.UUID(...))`. -/
def insertDashes (cs : List Char) : List Char :=
  cs.take 8 ++ '-' :: ((cs.drop 8).take 4 ++ '-' :: ((cs.drop 12).take 4
    ++ '-' :: ((cs.drop 16).take 4 ++ '-' :: (cs.drop 20))))

/-- `str(uuid.uuid4())` for a given entropy draw: hex digits of the
    version-and-variant-adjusted bytes, dashed into five groups. -/
def uuid4Str (e : Entropy) : String :=
  String.mk (insertDashes (hexPairs (uuid4Bytes e)))

/-- A lowercase hexadecimal digit character. -/
def isLowerHexChar (c : Char) : Bool :=
  (('0' ≤ c) && (c ≤ '9')) || (('a' ≤ c) && (c ≤ 'f'))

/-- The UUIDv4 string grammar over a character list: 36 characters, dashes at
    positions 8, 13, 18 and 23, the character 14 (first digit of the third
    group) equal to the version digit 4, the character 19 (first digit of the
    fourth group) one of 8, 9, a, b, and every other character a lowercase
    hexadecimal digit. -/
def isValidUUIDv4Chars : List Char → Bool
  | a0 :: a1 :: a2 :: a3 :: a4 :: a5 :: a6 :: a7 :: d1 :: b0 :: b1 :: b2 :: b3 :: d2 ::
    v0 :: v1 :: v2 :: v3 :: d3 :: w0 :: w1 :: w2 :: w3 :: d4 ::
    y0 :: y1 :: y2 :: y3 :: y4 :: y5 :: y6 :: y7 :: y8 :: y9 :: y10 :: y11 :: [] =>
      (d1 == '-') && (d2 == '-') && (d3 == '-') && (d4 == '-') &&
      (v0 == '4') &&
      ((w0 == '8') || (w0 == '9') || (w0 == 'a') || (w0 == 'b')) &&
      ([a0, a1, a2, a3, a4, a5, a6, a7, b0, b1, b2, b3, v1, v2, v3,
        w1, w2, w3, y0, y1, y2, y3, y4, y5, y6, y7, y8, y9, y10, y11].all isLowerHexChar)
  | _ => false

/-- A string is a valid UUIDv4 when its characters satisfy the grammar. -/
def isValidUUIDv4 (s : String) : Bool :=
  isValidUUIDv4Chars s.data

/-- The character list underlying `uuid4Str`, written out: each byte
    contributes its two nibbles, with the four dashes in between. -/
theorem uuid4_chars (e : Entropy) :
    insertDashes (hexPairs (uuid4Bytes e)) =
      [hexDigit (e.r0 % 256 / 16), hexDigit (e.r0 % 256),
       hexDigit (e.r1 % 256 / 16), hexDigit (e.r1 % 256),
       hexDigit (e.r2 % 256 / 16), hexDigit (e.r2 % 256),
       hexDigit (e.r3 % 256 / 16), hexDigit (e.r3 % 256), '-',
       hexDigit (e.r4 % 256 / 16), hexDigit (e.r4 % 256),
       hexDigit (e.r5 % 256 / 16), hexDigit (e.r5 % 256), '-',
       hexDigit ((e.r6 % 16 + 64) / 16), hexDigit (e.r6 % 16 + 64),
       hexDigit (e.r7 % 256 / 16), hexDigit (e.r7 % 256), '-',
       hexDigit ((e.r8 % 64 + 128) / 16), hexDigit (e.r8 % 64 + 128),
       hexDigit (e.r9 % 256 / 16), hexDigit (e.r9 % 256), '-',
       hexDigit (e.r10 % 256 / 16), hexDigit (e.r10 % 256),
       hexDigit (e.r11 % 256 / 16), hexDigit (e.r11 % 256),
       hexDigit (e.r12 % 256 / 16), hexDigit (e.r12 % 256),
       hexDigit (e.r13 % 256 / 16), hexDigit (e.r13 % 256),
       hexDigit (e.r14 % 256 / 16), hexDigit (e.r14 % 256),
       hexDigit (e.r15 % 256 / 16), hexDigit (e.r15 % 256)] := rfl

/-- `hexDigit` only depends on its argument modulo 16. -/
theorem hexDigit_mod16 (n : Nat) : hexDigit (n % 16) = hexDigit n := by
  unfold hexDigit
  rw [Nat.mod_mod_of_dvd n dvd_rfl]

/-- Every digit `hexDigit` produces is a lowercase hexadecimal digit. -/
theorem hexDigit_isLowerHex (n : Nat) : isLowerHexChar (hexDigit n) = true := by
  have h : n % 16 < 16 := Nat.mod_lt _ (by decide)
  have key : ∀ m : Fin 16, isLowerHexChar (hexDigit m.val) = true := by decide
  have h2 := key ⟨n % 16, h⟩
  rwa [hexDigit_mod16] at h2

/-- The high nibble of the version-adjusted byte 6 always prints as 4. -/
theorem hexDigit_version (n : Nat) : hexDigit ((n % 16 + 64) / 16) = '4' := by
  have h : (n % 16 + 64) / 16 = 4 := by omega
  rw [h]
  decide

/-- The high nibble of the variant-adjusted byte 8 always prints as one of
    8, 9, a, b. -/
theorem hexDigit_variant (n : Nat) :
    ((hexDigit ((n % 64 + 128) / 16) == '8') || (hexDigit ((n % 64 + 128) / 16) == '9') ||
     (hexDigit ((n % 64 + 128) / 16) == 'a') || (hexDigit ((n % 64 + 128) / 16) == 'b')) = true := by
  have h : (n % 64 + 128) / 16 = 8 ∨ (n % 64 + 128) / 16 = 9 ∨
      (n % 64 + 128) / 16 = 10 ∨ (n % 64 + 128) / 16 = 11 := by omega
  rcases h with h | h | h | h <;> rw [h] <;> decide

/-- The string `str(uuid.uuid4())` produces is a valid UUIDv4 for every
    entropy draw. -/
theorem uuid4Str_valid (e : Entropy) : isValidUUIDv4 (uuid4Str e) = true := by
  show isValidUUIDv4Chars (insertDashes (hexPairs (uuid4Bytes e))) = true
  rw [uuid4_chars]
  simp only [isValidUUIDv4Chars, List.all_cons, List.all_nil,
    hexDigit_isLowerHex, hexDigit_version, hexDigit_variant, Bool.and_true]
  decide

/-- Distinct values modulo 16 print as distinct hexadecimal digits. -/
theorem hexDigit_inj16 (a b : Nat) (h : hexDigit a = hexDigit b) : a % 16 = b % 16 := by
  have ha : a % 16 < 16 := Nat.mod_lt _ (by decide)
  have hb : b % 16 < 16 := Nat.mod_lt _ (by decide)
  have key : ∀ x y : Fin 16, hexDigit x.val = hexDigit y.val → x = y := by decide
  have h2 : hexDigit (a % 16) = hexDigit (b % 16) := by
    rw [hexDigit_mod16, hexDigit_mod16]
    exact h
  exact congrArg Fin.val (key ⟨a % 16, ha⟩ ⟨b % 16, hb⟩ h2)

/-- A byte below 256 is determined by the two hexadecimal digits printed for
    it. -/
theorem hexPair_inj (x y : Nat) (hx : x < 256) (hy : y < 256)
    (h1 : hexDigit (x / 16) = hexDigit (y / 16)) (h2 : hexDigit x = hexDigit y) : x = y := by
  have e1 : x / 16 % 16 = y / 16 % 16 := hexDigit_inj16 _ _ h1
  have e2 : x % 16 = y % 16 := hexDigit_inj16 _ _ h2
  omega

/-- The printed UUID string determines the adjusted byte sequence: two starts
    whose entropy draws differ (after the version and variant bits are
    forced) produce different keys. -/
theorem uuid4Str_inj (e f : Entropy) (h : uuid4Str e = uuid4Str f) :
    uuid4Bytes e = uuid4Bytes f := by
  have hd : insertDashes (hexPairs (uuid4Bytes e)) = insertDashes (hexPairs (uuid4Bytes f)) :=
    congrArg String.data h
  rw [uuid4_chars, uuid4_chars] at hd
  simp only [List.cons.injEq, eq_self_iff_true, true_and, and_true] at hd
  obtain ⟨h0, h1, h2, h3, h4, h5, h6, h7, h8, h9, h10, h11, h12, h13, h14, h15,
    h16, h17, h18, h19, h20, h21, h22, h23, h24, h25, h26, h27, h28, h29, h30, h31⟩ := hd
  simp only [uuid4Bytes, List.cons.injEq, and_true]
  exact ⟨hexPair_inj _ _ (by omega) (by omega) h0 h1,
    hexPair_inj _ _ (by omega) (by omega) h2 h3,
    hexPair_inj _ _ (by omega) (by omega) h4 h5,
    hexPair_inj _ _ (by omega) (by omega) h6 h7,
    hexPair_inj _ _ (by omega) (by omega) h8 h9,
    hexPair_inj _ _ (by omega) (by omega) h10 h11,
    hexPair_inj _ _ (by omega) (by omega) h12 h13,
    hexPair_inj _ _ (by omega) (by omega) h14 h15,
    hexPair_inj _ _ (by omega) (by omega) h16 h17,
    hexPair_inj _ _ (by omega) (by omega) h18 h19,
    hexPair_inj _ _ (by omega) (by omega) h20 h21,
    hexPair_inj _ _ (by omega) (by omega) h22 h23,
    hexPair_inj _ _ (by omega) (by omega) h24 h25,
    hexPair_inj _ _ (by omega) (by omega) h26 h27,
    hexPair_inj _ _ (by omega) (by omega) h28 h29,
    hexPair_inj _ _ (by omega) (by omega) h30 h31⟩

/-- The values a discovery payload field can hold: JSON strings and
    integers. -/
inductive JVal
  | str (s : String)
  | nat (n : Nat)
deriving DecidableEq

/-- The dict literal built each loop iteration (app.py lines 38-44), as its
    ordered field list: the fixed message tag, the key of the run, the fixed
    device label, the resolved local address, and the configured HTTP port. -/
def discovery_payload (key addr : String) (httpPort : Nat) : List (String × JVal) :=
  [("message", JVal.str "REACHER_DEVICE_DISCOVERY"),
   ("key", JVal.str key),
   ("name", JVal.str "REACHER_Device"),
   ("address", JVal.str addr),
   ("port", JVal.nat httpPort)]

/-- The send loop (app.py lines 36-48): each iteration rebuilds and sends the
    payload from the same captured key, address and port.  `fuel` is the
    number of iterations before the stop flag is observed. -/
def sendLoopPayloads (key addr : String) (httpPort : Nat) : Nat → List (List (String × JVal))
  | 0 => []
  | fuel + 1 => discovery_payload key addr httpPort :: sendLoopPayloads key addr httpPort fuel

/-- One `run_service` lifetime (app.py lines 22-48): the key is generated
    once from the entropy drawn at this start (line 26) and captured by the
    loop, which then emits one payload per iteration. -/
def run_service_payloads (e : Entropy) (addr : String) (httpPort fuel : Nat) :
    List (List (String × JVal)) :=
  sendLoopPayloads (uuid4Str e) addr httpPort fuel

/-- Every payload the loop emits is the payload built from the captured key,
    address and port. -/
theorem mem_sendLoopPayloads (key addr : String) (httpPort : Nat) :
    ∀ fuel p, p ∈ sendLoopPayloads key addr httpPort fuel →
      p = discovery_payload key addr httpPort := by
  intro fuel
  induction fuel with
  | zero =>
      intro p hp
      simp [sendLoopPayloads] at hp
  | succ f ih =>
      intro p hp
      rcases List.mem_cons.mp hp with h | h
      · exact h
      · exact ih p h

/-- C3: every payload emitted within one `run_service` lifetime has exactly
    the five fields message, key, name, address, port, in that order; its
    port field is the configured HTTP port; its key field is the string of
    the UUID generated at this start, which is a valid UUIDv4; all payloads
    of the lifetime carry that same key; and the key determines (and is
    determined by) the adjusted bytes of the entropy drawn at this start, so
    a later start with a different adjusted draw carries a different key. -/
theorem C3_discovery_payloads (e : Entropy) (addr : String) (httpPort fuel : Nat)
    (p : List (String × JVal)) (hp : p ∈ run_service_payloads e addr httpPort fuel) :
    p.map Prod.fst = ["message", "key", "name", "address", "port"] ∧
    List.lookup "port" p = some (JVal.nat httpPort) ∧
    List.lookup "key" p = some (JVal.str (uuid4Str e)) ∧
    isValidUUIDv4 (uuid4Str e) = true ∧
    (∀ q, q ∈ run_service_payloads e addr httpPort fuel →
      List.lookup "key" q = List.lookup "key" p) ∧
    (∀ f, uuid4Str f = uuid4Str e → uuid4Bytes f = uuid4Bytes e) := by
  have hp' := mem_sendLoopPayloads (uuid4Str e) addr httpPort fuel p hp
  subst hp'
  refine ⟨rfl, rfl, rfl, uuid4Str_valid e, ?_, fun f hf => uuid4Str_inj f e hf⟩
  intro q hq
  rw [mem_sendLoopPayloads (uuid4Str e) addr httpPort fuel q hq]

/-- A concrete all-zero entropy draw. -/
def entropy0 : Entropy :=
  ⟨0, 0, 0, 0, 0, 0, 0, 0, 0, 0, 0, 0, 0, 0, 0, 0⟩

/-- C3 witness: the single payload of a one-iteration lifetime started with
    the all-zero draw carries a valid UUIDv4 key. -/
theorem C3_discovery_payloads_witness :
    discovery_payload (uuid4Str entropy0) "192.168.0.2" 6229
      ∈ run_service_payloads entropy0 "192.168.0.2" 6229 1 ∧
    isValidUUIDv4 (uuid4Str entropy0) = true :=
  ⟨List.mem_cons_self _ _,
   (C3_discovery_payloads entropy0 "192.168.0.2" 6229 1
      (discovery_payload (uuid4Str entropy0) "192.168.0.2" 6229)
      (List.mem_cons_self _ _)).2.2.2.1⟩
